import Mathlib

/-!
# Verification of the autoheal locator-healing core

A shallow embedding, in Lean 4, of the parts of the `autoheal` package that the
specification's claims are about:

* `autoheal/failure_detector.py` — the test executor wrapper;
* `autoheal/ios_xml.py` and `autoheal/ios_patch_generator.py` — the iOS
  accessibility-tree proposal strategy;
* `autoheal/llm_patch_generator.py` — the web proposal strategy (whose callee
  `SimpleRetriever` is absent from the sources; it is modelled from the spec);
* `autoheal/patch_validator.py` and `autoheal/ci_orchestrator.py` — the
  propose-apply-verify orchestration cycle;
* `autoheal/mapping_updater.py` — the YAML mapping bulk update.

Modelling conventions:

* Files on disk are an association list from paths to string contents.  A path
  is a `(directory, filename)` pair mirroring the `os.path.join(dir, name)`
  calls in the sources (every joined path in the modelled code joins a
  directory variable with a literal filename).
* Values produced by external libraries (`os.path.abspath`, `os.path.isdir`,
  `xml.etree.ElementTree.fromstring`, the imported test module's behaviour)
  are supplied as fields of an environment record; the modelled code is
  deterministic in that environment.
* Python truthiness of optional strings (`None` and `""` are falsy) is modelled
  explicitly where the sources rely on it.
* Byte contents of artifact JSON renderings are never inspected by any claim;
  they are modelled by canonical rendering functions.
-/

namespace Autoheal

/-! ## Association lists (file stores) -/

/-- First value bound to a key in an association list. -/
def alookup {κ α : Type} [DecidableEq κ] : List (κ × α) → κ → Option α
  | [], _ => none
  | (k, v) :: rest, key => if k = key then some v else alookup rest key

/-- Overwrite the value bound to a key, or append the binding if absent
(the modelled `open(path, "w")` both overwrites and creates). -/
def aupdate {κ α : Type} [DecidableEq κ] : List (κ × α) → κ → α → List (κ × α)
  | [], key, v => [(key, v)]
  | (k, w) :: rest, key, v =>
      if k = key then (k, v) :: rest else (k, w) :: aupdate rest key v

theorem alookup_aupdate_self {κ α : Type} [DecidableEq κ]
    (l : List (κ × α)) (k : κ) (v : α) : alookup (aupdate l k v) k = some v := by
  induction l with
  | nil => simp [alookup, aupdate]
  | cons hd tl ih =>
      obtain ⟨k', w⟩ := hd
      by_cases h : k' = k <;> simp [alookup, aupdate, h, ih]

theorem alookup_aupdate_ne {κ α : Type} [DecidableEq κ]
    (l : List (κ × α)) (k k' : κ) (v : α) (h : k' ≠ k) :
    alookup (aupdate l k v) k' = alookup l k' := by
  induction l with
  | nil =>
      simp only [aupdate, alookup]
      rw [if_neg (fun hh => h hh.symm)]
  | cons hd tl ih =>
      obtain ⟨k₀, w⟩ := hd
      by_cases h0 : k₀ = k <;> by_cases h1 : k₀ = k' <;>
        simp_all [alookup, aupdate]

/-! ## String helpers (Python `in`, truthiness) -/

/-- Boolean list-prefix test. -/
def isPrefB : List Char → List Char → Bool
  | [], _ => true
  | _ :: _, [] => false
  | a :: as, b :: bs => a = b && isPrefB as bs

/-- Boolean list-infix test (Python `needle in hay` on strings). -/
def isInfB : List Char → List Char → Bool
  | n, [] => isPrefB n []
  | n, h :: t => isPrefB n (h :: t) || isInfB n t

/-- Python substring membership `needle in hay`. -/
def strContains (hay needle : String) : Bool :=
  isInfB needle.toList hay.toList

/-- Boolean string-prefix test (Python `str.startswith`). -/
def startsWithB (s pre : String) : Bool :=
  isPrefB pre.toList s.toList

/-- Boolean string-suffix test (Python `str.endswith`). -/
def endsWithB (s suf : String) : Bool :=
  isPrefB suf.toList.reverse s.toList.reverse

/-- ASCII lower-casing of a character (the sources only lower-case ASCII
identifiers and labels). -/
def charLower (c : Char) : Char :=
  if 65 ≤ c.toNat && c.toNat ≤ 90 then Char.ofNat (c.toNat + 32) else c

/-- Python `str.lower()` restricted to ASCII data. -/
def strLower (s : String) : String :=
  String.mk (s.toList.map charLower)

/-- Split a character list on a non-empty separator, Python
`str.split(sep)` semantics (left to right, non-overlapping).  The recursion is
fuelled so that it is structural and evaluates in the kernel; every step
consumes at least one character, so fuel equal to the input length suffices
and the zero-fuel arm is unreachable. -/
def splitAux (sep : List Char) : Nat → List Char → List Char → List (List Char)
  | _, [], acc => [acc.reverse]
  | 0, l, acc => [acc.reverse ++ l]
  | fuel + 1, c :: rest, acc =>
      if isPrefB sep (c :: rest) then
        acc.reverse :: splitAux sep fuel ((c :: rest).drop sep.length) []
      else splitAux sep fuel rest (c :: acc)

/-- Python `str.split(sep)` for a non-empty separator (`str.split` raises on
an empty separator; the sources only split on `"label"` and `'"'`). -/
def pySplit (s sep : String) : List String :=
  match sep.toList with
  | [] => [s]
  | c :: cs => (splitAux (c :: cs) s.toList.length s.toList []).map String.mk

/-- Python truthiness of an optional string: `None` and `""` are falsy. -/
def pyTruthy : Option String → Bool
  | none => false
  | some s => s ≠ ""

/-- Python `x or default` on an optional string. -/
def pyOrDefault (x : Option String) (d : String) : String :=
  match x with
  | none => d
  | some s => if s = "" then d else s

/-! ## `autoheal/failure_detector.py`

```python
def run_test_and_capture(test_module_path: str):
    try:
        mod = importlib.import_module(test_module_path)
        mod = importlib.reload(mod)
        passed = bool(mod.run_test())
        if passed:
            return True, None
        else:
            return False, "AssertionError: locator not found"
    except Exception as e:
        return False, f"{e.__class__.__name__}: {e}"
```

One invocation of the imported test unit either returns (with a truthiness
`Bool`) or raises an error carrying a class name and a message; the import and
reload failures are raises as well.  The wrapper is total on that behaviour
type: the `except Exception` arm converts every raise to a `(False, error)`
pair, so no outcome propagates an exception. -/

/-- Behaviour of one invocation of the test entry point (including import and
reload): it returns a value of some truthiness, or raises an error with a
class name and message. -/
inductive TestOutcome : Type
  | ret (b : Bool)
  | raise (kind msg : String)
deriving DecidableEq

/-- `failure_detector.run_test_and_capture`, as a total function on the
behaviour of the test entry point. -/
def run_test_and_capture : TestOutcome → Bool × Option String
  | .ret true => (true, none)
  | .ret false => (false, some "AssertionError: locator not found")
  | .raise kind msg => (false, some (kind ++ ": " ++ msg))

/-! ## `autoheal/ios_xml.py`

The XML element tree returned by `xml.etree.ElementTree.fromstring` is
modelled as a tree of nodes with string attributes; `parse_xml` itself wraps
the external XML library and is supplied as an environment function
`String → Option XNode` (`None` on a parse error). -/

/-- An XML element: attributes and child elements, in document order. -/
inductive XNode : Type
  | mk (attrs : List (String × String)) (children : List XNode)

/-- The attribute list of a node (`node.attrib`). -/
def XNode.attrs : XNode → List (String × String)
  | .mk a _ => a

/-- The child list of a node, in document order (`list(n)`). -/
def XNode.children : XNode → List XNode
  | .mk _ c => c

/-- `node.attrib.get(key)`. -/
def XNode.attrGet (n : XNode) (key : String) : Option String :=
  alookup n.attrs key

/-- `ios_xml.get_attr`: `n.attrib.get(key) or ""` — both a missing attribute
and an empty attribute collapse to `""`. -/
def get_attr (n : XNode) (key : String) : String :=
  (n.attrGet key).getD ""

mutual

/-- Traversal of a single node's subtree in the order produced by the
stack-based `ios_xml.iter_nodes` loop: the node itself, then the subtrees of
its children with the *last* child first (`stack.pop()` takes the end of the
Python list, and `stack.extend(list(n))` pushed the children in document
order). -/
def travN : XNode → List XNode
  | .mk a c => .mk a c :: travL c

/-- Subtrees of a document-order child list, traversed last child first. -/
def travL : List XNode → List XNode
  | [] => []
  | n :: rest => travL rest ++ travN n

end

/-- `ios_xml.iter_nodes`, on a stack whose list *end* is the top, exactly as
the Python `while stack: n = stack.pop(); yield n; stack.extend(list(n))`
loop consumes it.  Defined via the structural traversal; the theorem
`iterNodes_loop` below certifies that it satisfies the loop's recurrence. -/
def iterNodes (stack : List XNode) : List XNode :=
  travL stack

theorem travL_append (a b : List XNode) :
    travL (a ++ b) = travL b ++ travL a := by
  induction a with
  | nil => simp [travL]
  | cons hd tl ih => simp [travL, ih]

/-- The Python loop's recurrence: popping the top of the stack yields that
node, then continues with its children pushed on top (so that the last child
is popped first). -/
theorem iterNodes_loop (n : XNode) (stack : List XNode) :
    iterNodes (stack ++ [n]) = n :: iterNodes (stack ++ n.children) := by
  cases n with
  | mk a c =>
      simp [iterNodes, travL_append, travL, travN, XNode.children]

/-- `ios_xml.find_button_with_label`: first traversed node whose `type` ends in
`"Button"` and whose `label` equals the given label. -/
def find_button_with_label (root : XNode) (labelExact : String) : Option XNode :=
  (iterNodes [root]).find? fun n =>
    endsWithB (get_attr n "type") "Button" && get_attr n "label" = labelExact

/-- De-duplication keeping the first occurrence (the `seen` set loop). -/
def dedupFirst (seen : List String) : List String → List String
  | [] => []
  | x :: rest =>
      if x ∈ seen then dedupFirst seen rest
      else x :: dedupFirst (x :: seen) rest

/-- `ios_xml.find_button_label_candidates`: non-empty labels of button-typed
nodes in traversal order, de-duplicated keeping the first occurrence. -/
def find_button_label_candidates (root : XNode) : List String :=
  let out := (iterNodes [root]).filterMap fun n =>
    let t := get_attr n "type"
    let lbl := get_attr n "label"
    if endsWithB t "Button" && lbl ≠ "" then some lbl else none
  dedupFirst [] out

/-! ## `autoheal/ios_patch_generator.py` -/

/-- A proposed locator patch `{"strategy": ..., "value": ..., "rationale": ...}`. -/
structure IosPatch : Type where
  strategy : String
  value : String
  rationale : String
deriving DecidableEq

/-- The `target_label` extraction:

```python
target_label = old_predicate_or_label
if "label" in old_predicate_or_label and '"' in old_predicate_or_label:
    try:
        target_label = old_predicate_or_label.split('label')[1].split('"')[1]
    except Exception:
        pass
```

An out-of-range index raises and is swallowed, leaving the original string. -/
def extractTargetLabel (old : String) : String :=
  if strContains old "label" && strContains old "\"" then
    match pySplit old "label" with
    | _ :: seg :: _ =>
        match pySplit seg "\"" with
        | _ :: v :: _ => v
        | _ => old
    | _ => old
  else old

/-- The single-quote character, used in rendered rationale strings. -/
def sq : String := String.singleton (Char.ofNat 39)

/-- Body of `generate_ios_locator_patch` after a successful XML parse
(lines 9–35 of `ios_patch_generator.py`). -/
def genIosFromRoot (old : String) (root : XNode) (preferAccessibility : Bool) :
    Option IosPatch :=
  let target := extractTargetLabel old
  let candidates := find_button_label_candidates root
  -- first label containing the target as a case-insensitive substring and
  -- not identical to it
  let likely₀ := candidates.find? fun lbl =>
    strContains (strLower lbl) (strLower target) && lbl ≠ target
  -- `if likely_new is None and candidates: likely_new = candidates[0]`
  let likely := match likely₀ with
    | some l => some l
    | none => candidates.head?
  -- `find_button_with_label(root, likely_new) if likely_new else None`
  let chosen := match likely with
    | some l => if l = "" then none else find_button_with_label root l
    | none => none
  let predicatePatch : Option IosPatch :=
    match likely with
    | some l =>
        if l = "" then none   -- `if likely_new:` — empty string is falsy
        else some
          { strategy := "ios_predicate"
            value := "label == \"" ++ l ++ "\""
            rationale := "Updated label from \"" ++ target ++ "\" to \"" ++ l ++ "\"." }
    | none => none
  match preferAccessibility, chosen with
  | true, some node =>
      -- `acc_id = node.attrib.get("name") or node.attrib.get("accessibilityIdentifier")`
      let accId := match node.attrGet "name" with
        | some v => if v = "" then node.attrGet "accessibilityIdentifier" else some v
        | none => node.attrGet "accessibilityIdentifier"
      if pyTruthy accId then
        some
          { strategy := "accessibility_id"
            value := accId.getD ""
            rationale := "Preferred accessibility id \"" ++ accId.getD "" ++
              "\" on button labeled \"" ++ (likely.getD "") ++ "\"." }
      else predicatePatch
  | _, _ => predicatePatch

/-- `ios_patch_generator.generate_ios_locator_patch`; `parse` stands for
`ios_xml.parse_xml`, which wraps the external `xml.etree` parser. -/
def generate_ios_locator_patch (parse : String → Option XNode)
    (old xmlText : String) (preferAccessibility : Bool) : Option IosPatch :=
  match parse xmlText with
  | none => none
  | some root => genIosFromRoot old root preferAccessibility

/-! ## `autoheal/llm_patch_generator.py` (web proposal strategy)

```python
from .retriever import SimpleRetriever
def generate_locator_patch(old_id: str, html_text: str):
    retriever = SimpleRetriever(html_text)
    new_id = retriever.guess_replacement_for(old_id)
    if not new_id:
        return None
    return {"new_id": new_id, "rationale": f"Replaced ... via HTML heuristic."}
```

`retriever.py` in the sources defines only `LocalVectorStore` and
`LocalRetriever`; the class `SimpleRetriever` it is asked for does not exist
there (the import fails, and the orchestrator's guarded import leaves
`generate_locator_patch = None`).  The heuristic itself is therefore modelled
from the spec (§4.1, web heuristic) below, while `generate_locator_patch` is
translated from the source above. -/

mutual

/-- Modelled from the spec: `SimpleRetriever`'s extraction of all `id="..."`
attributes from the HTML snapshot text via pattern scan, in order of
appearance.  `SimpleRetriever` is imported by `llm_patch_generator.py` but is
absent from `retriever.py` in the sources. -/
def idScan : List Char → List String
  | 'i' :: 'd' :: '=' :: '"' :: rest => idVal [] rest
  | _ :: rest => idScan rest
  | [] => []

/-- Accumulate one scanned `id="..."` value up to its closing quote; an
unterminated quote matches no attribute pattern and yields nothing. -/
def idVal (acc : List Char) : List Char → List String
  | '"' :: rest => String.mk acc.reverse :: idScan rest
  | c :: rest => idVal (c :: acc) rest
  | [] => []

end

/-- Modelled from the spec: all `id` attribute values of the HTML text, in
order of appearance. -/
def extract_ids (html : String) : List String :=
  idScan html.toList

/-- The fixed preference list of the spec's web heuristic, in order. -/
def webPreferenceList : List String :=
  ["proceed", "continue", "submit", "checkout"]

/-- Modelled from the spec: `SimpleRetriever.guess_replacement_for`.  Filters
candidates whose id starts with the fixed prefix convention `"btn"`; among
these picks the first whose id contains one of the preference list
(preference-list outer loop, candidates inner loop, first match wins, matched
case-insensitively so that `btnProceedNew` matches `proceed`); otherwise falls
back to the first `btn`-prefixed candidate, then to the first id found
anywhere, else null. -/
def guess_replacement_for (html _oldId : String) : Option String :=
  let ids := extract_ids html
  let btnIds := ids.filter fun i => startsWithB i "btn"
  let preferred := webPreferenceList.findSome? fun w =>
    btnIds.find? fun i => strContains (strLower i) w
  match preferred with
  | some i => some i
  | none =>
      match btnIds.head? with
      | some i => some i
      | none => ids.head?

/-- The single-quote character, used in the web rationale rendering. -/
def squote : String := String.singleton (Char.ofNat 39)

/-- A web locator candidate `{"new_id": ..., "rationale": ...}`. -/
structure WebPatch : Type where
  new_id : String
  rationale : String
deriving DecidableEq

/-- `llm_patch_generator.generate_locator_patch` (translated from the source;
its callee `guess_replacement_for` is spec-modelled above).  A falsy `new_id`
(`None` or `""`) yields `None`. -/
def generate_locator_patch (oldId htmlText : String) : Option WebPatch :=
  match guess_replacement_for htmlText oldId with
  | none => none
  | some newId =>
      if newId = "" then none
      else some
        { new_id := newId
          rationale := "Replaced " ++ squote ++ oldId ++ squote ++ " with " ++
            squote ++ newId ++ squote ++ " via HTML heuristic." }

/-! ## `autoheal/patch_validator.py` -/

/-- The result payload of `PatchValidator.validate`. -/
structure VResult : Type where
  ok : Bool
  tests_passed : Bool
  policy_ok : Bool
  changed_lines : Nat
  reason : Option String
deriving DecidableEq

/-- `PatchValidator.validate(workspace, patch)`.  `dirs` is the set of
directories that exist (`os.path.isdir`); `patchIsDict` is whether the patch
argument is a `dict` (at both orchestrator call sites it always is). -/
def PatchValidator_validate (dirs : List String) (workspace : String)
    (patchIsDict : Bool) : VResult :=
  if workspace = "" || workspace ∉ dirs then
    { ok := false, tests_passed := false, policy_ok := true, changed_lines := 0
      reason := some ("Workspace not found: " ++ workspace) }
  else if ¬ patchIsDict then
    { ok := false, tests_passed := false, policy_ok := true, changed_lines := 0
      reason := some "Patch is not a dict" }
  else
    { ok := true, tests_passed := true, policy_ok := true, changed_lines := 0
      reason := none }

/-! ## `autoheal/ci_orchestrator.py` -/

/-- A path `(directory, filename)`: every path built by the modelled code is
`os.path.join` of a directory variable and a literal filename. -/
abbrev FPath : Type := String × String

/-- The file system: an association list from paths to (string) contents. -/
abbrev FS : Type := List (FPath × String)

/-- Read a file, `None` when absent. -/
def fsRead (fs : FS) (p : FPath) : Option String := alookup fs p

/-- `open(path, "w").write(content)`: overwrite or create. -/
def fsWrite (fs : FS) (p : FPath) (content : String) : FS := aupdate fs p content

/-- `ci_orchestrator._safe_read`: the file content, or `""` when the read
raises. -/
def safeRead (fs : FS) (p : FPath) : String := (fsRead fs p).getD ""

/-- The environment of one `Orchestrator.run_once` call: constructor
arguments and the values supplied by the runtime (directory existence, the
test module behaviour, the XML parser).

At import time of `ci_orchestrator.py` in the given sources:
* `run_test_and_capture`, `ArtifactStore` and `generate_ios_locator_patch`
  are imported successfully;
* `from .llm_patch_generator import generate_locator_patch` raises (that
  module's own `from .retriever import SimpleRetriever` fails — `retriever.py`
  defines no `SimpleRetriever`), so the guarded import leaves
  `generate_locator_patch = None`;
* `from .patch_validator import apply_and_run` binds the two-parameter
  back-compat shim, and `PatchValidator` imports successfully. -/
structure OrchEnv : Type where
  /-- `tests_dir` constructor argument. -/
  testsDir : String
  /-- `logs_dir` constructor argument. -/
  logsDir : String
  /-- `os.path.abspath(logs_dir or "./artifacts")`, the artifact store base. -/
  absLogs : String
  /-- The directories that exist (`os.path.isdir`). -/
  dirs : List String
  /-- Behaviour of the `n`-th invocation of the imported test module. -/
  exec : Nat → TestOutcome
  /-- `ios_xml.parse_xml` (the external `xml.etree` parser). -/
  parseXml : String → Option XNode

/-- Canonical rendering of the `suggested_patch` JSON artifact (its byte
content is never read back by the modelled code or by any claim). -/
def renderSuggestedIos (p : IosPatch) : String :=
  "platform=ios strategy=" ++ p.strategy ++ " value=" ++ p.value ++
    " rationale=" ++ p.rationale

/-- Canonical rendering of the `validation_result` JSON artifact (written
before the `rolled_back` key is added to the in-memory result; its byte
content is never read back). -/
def renderValidation (status platform diff : String) : String :=
  "status=" ++ status ++ " platform=" ++ platform ++ " diff=" ++ diff

/-- The outcome of a completed `run_once` call: the returned result dict
(status, optional reason, `rolled_back` flag, diff, suggestion) together with
the final file system and ghost instrumentation used by the claims — how
often the test executor ran, the verification verdict when the apply step was
reached, and the proposal-strategy result when a strategy was invoked. -/
structure OrchOut : Type where
  status : String
  reason : Option String
  rolledBack : Bool
  diff : String
  suggestion : Option IosPatch
  fs : FS
  execCalls : Nat
  verified : Option Bool
  proposal : Option (Option IosPatch)
  patchedText : Option String
  originalText : Option String

/-- `ci_orchestrator._apply_and_run_compat(test_file, test_module_relpath,
payload)`.

The module-level `_apply_and_run_fn` is `patch_validator.apply_and_run`,
whose signature is `(workspace, patch)`: the three-argument legacy call
raises `TypeError`, which is caught, falling through to the `PatchValidator`
path — so no file is patched and no test is re-run here.  The validator is
called with `os.path.dirname(test_file) or "."` (with the `(dir, name)` path
model, the directory component, defaulted to `"."` when empty) and the dict
`{"target": ..., "payload": ...}` (always a dict).
Returns `(ok, diff, patched_text, original_text)` with an empty diff and
`patched_text = original_text = _safe_read(test_file)`. -/
def apply_and_run_compat {A : Type} (env : OrchEnv) (fs : FS) (testFile : FPath)
    (_testModuleRelpath : String) (_payload : A) :
    Bool × String × String × String :=
  let workspace := if testFile.1 = "" then "." else testFile.1
  let res := PatchValidator_validate env.dirs workspace true
  let originalText := safeRead fs testFile
  (res.ok, "", originalText, originalText)

/-- The tail of `run_once` shared by the apply branch: persist the validation
result, then commit (write `patch.diff`) or roll back (rewrite the original
text into the target file and mark `rolled_back`). -/
def runOnceFinish (env : OrchEnv) (fs : FS) (testFile : FPath)
    (platform : String) (sugg : IosPatch)
    (a : Bool × String × String × String) : OrchOut :=
  let ok := a.1
  let diff := a.2.1
  let patchedText := a.2.2.1
  let originalText := a.2.2.2
  let status := if ok then "healed" else "failed_validation"
  let fs₄ := fsWrite fs (env.absLogs, "validation_result")
    (renderValidation status platform diff)
  if ok then
    { status := "healed", reason := none, rolledBack := false, diff := diff
      suggestion := some sugg
      fs := fsWrite fs₄ (env.logsDir, "patch.diff") diff
      execCalls := 1, verified := some true, proposal := some (some sugg)
      patchedText := some patchedText, originalText := some originalText }
  else
    { status := "failed_validation", reason := none, rolledBack := true
      diff := diff, suggestion := some sugg
      fs := fsWrite fs₄ testFile originalText
      execCalls := 1, verified := some false, proposal := some (some sugg)
      patchedText := some patchedText, originalText := some originalText }

/-- `Orchestrator.run_once(test_module_relpath, snapshot_path, old_key,
platform)` over the file-system model.  Returns `None` when the unguarded
`open(snapshot_path)` raises (missing snapshot file); every other path
returns the result dict.  The test executor is invoked exactly once, at
detection: the compat apply layer never re-runs the test. -/
def run_once (env : OrchEnv) (fs₀ : FS) (testModuleRelpath : String)
    (snapshotPath : FPath) (oldKey : String) (platform : String) :
    Option OrchOut :=
  let fr := run_test_and_capture (env.exec 0)
  if fr.1 then
    some { status := "already_passed", reason := none, rolledBack := false
           diff := "", suggestion := none, fs := fs₀, execCalls := 1
           verified := none, proposal := none
           patchedText := none, originalText := none }
  else
    let fs₁ := fsWrite fs₀ (env.absLogs, "failure_error")
      (pyOrDefault fr.2 "unknown error")
    match fsRead fs₁ snapshotPath with
    | none => none
    | some snap =>
        let fs₂ := fsWrite fs₁ (env.absLogs, "snapshot") snap
        if platform = "ios" then
          match generate_ios_locator_patch env.parseXml oldKey snap true with
          | none =>
              some { status := "no_candidate_found", reason := none
                     rolledBack := false, diff := "", suggestion := none
                     fs := fs₂, execCalls := 1, verified := none
                     proposal := some none
                     patchedText := none, originalText := none }
          | some p =>
              let fs₃ := fsWrite fs₂ (env.absLogs, "suggested_patch")
                (renderSuggestedIos p)
              let testFile : FPath := (env.testsDir, "ios_cart_test.py")
              -- new_locator = {"strategy": ..., "value": ...}
              let a := apply_and_run_compat env fs₃ testFile testModuleRelpath
                (p.strategy, p.value)
              some (runOnceFinish env fs₃ testFile "ios" p a)
        else
          -- web path: `generate_locator_patch is None` (its module failed to
          -- import), so the cycle short-circuits before invoking a strategy
          some { status := "no_candidate_found"
                 reason := some "llm_patch_generator missing"
                 rolledBack := false, diff := "", suggestion := none
                 fs := fs₂, execCalls := 1, verified := none, proposal := none
                 patchedText := none, originalText := none }

/-! ## `autoheal/mapping_updater.py`

The YAML documents are modelled structurally: a document has an `android` and
an `ios` slot, each either a list of records, present but not a list, or
absent; a record is either a dict (with optional string `name` and
`identifier` fields — a missing or non-string field compares unequal to any
string, which is all the code observes) or not a dict.  Loading a file either
yields such a document or raises a parse error; saving writes the document
back.  The ruamel/PyYAML round trip is modelled as the identity on this
structure, and `SingleQuotedScalarString` — a `str` subclass equal to its
plain value, affecting only serialized quoting — as the identity on strings. -/

/-- One entry of a platform list in a mapping document. -/
inductive MItem : Type
  | dict (name : Option String) (identifier : Option String)
  | nonDict
deriving DecidableEq

/-- A platform slot of a mapping document. -/
inductive PlatSlot : Type
  | items (l : List MItem)
  | nonList
  | missing
deriving DecidableEq

/-- A parsed YAML mapping document. -/
structure YDoc : Type where
  android : PlatSlot
  ios : PlatSlot
deriving DecidableEq

/-- The two platform keys the updater passes to `_update_mapping`. -/
inductive Plat : Type
  | android
  | ios
deriving DecidableEq

/-- `doc[platform_key]`. -/
def YDoc.slot (d : YDoc) : Plat → PlatSlot
  | .android => d.android
  | .ios => d.ios

/-- Replace `doc[platform_key]`. -/
def YDoc.setSlot (d : YDoc) : Plat → PlatSlot → YDoc
  | .android, s => { d with android := s }
  | .ios, s => { d with ios := s }

/-- The item loop of `_update_mapping`: rewrite the `identifier` of every
dict item whose `name` equals the logical name and whose identifier differs
from the new one; report whether anything changed.  (When the identifier is
already equal, the source merely re-wraps it as a single-quoted scalar of the
same string value — the identity here.) -/
def updItems (ln nid : String) : List MItem → List MItem × Bool
  | [] => ([], false)
  | it :: rest =>
      let r := updItems ln nid rest
      match it with
      | .dict nm idf =>
          if nm = some ln then
            if idf = some nid then (.dict nm idf :: r.1, r.2)
            else (.dict nm (some nid) :: r.1, true)
          else (it :: r.1, r.2)
      | .nonDict => (it :: r.1, r.2)

/-- `mapping_updater._update_mapping(doc, platform_key, logical_name,
new_identifier)`: returns the (possibly mutated) document and the `changed`
flag; a missing or non-list platform slot changes nothing. -/
def update_mapping (d : YDoc) (k : Plat) (ln nid : String) : YDoc × Bool :=
  match d.slot k with
  | .items l =>
      let r := updItems ln nid l
      (d.setSlot k (.items r.1), r.2)
  | _ => (d, false)

/-- A mapping file as the walk observes it: it parses to a document, or
`_load_yaml` raises with a message. -/
inductive MFile : Type
  | doc (d : YDoc)
  | bad (e : String)
deriving DecidableEq

/-- The files of one module directory, keyed by filename. -/
abbrev FStore : Type := List (String × MFile)

/-- One module directory of the walk. -/
structure Module : Type where
  path : String
  files : FStore
deriving DecidableEq

/-- One entry of the `results` list (`file`, `platform`, `changed`, optional
`error`); `fname` is ghost instrumentation recording which filename the entry
is for. -/
structure FileResult : Type where
  file : String
  fname : String
  platform : Option Plat
  changed : Bool
  error : Option String
deriving DecidableEq

/-- `os.path.join` of a directory and a plain filename. -/
def joinPath (a b : String) : String :=
  if a = "" then b else a ++ "/" ++ b

/-- `mapping_updater.DEFAULT_FILES`. -/
def DEFAULT_FILES : List String :=
  ["mappings-android.yaml", "mappings-ios.yaml",
   "mappings-android-spanish.yaml", "mappings-ios-spanish.yaml"]

/-- `mapping_updater._platform_from_filename`. -/
def platform_from_filename (fn : String) : Option Plat :=
  let l := strLower fn
  if strContains l "android" then some .android
  else if strContains l "ios" then some .ios
  else none

/-- Python truthiness guard `not new_..._identifier` on an optional string. -/
def idFalsy (o : Option String) : Bool :=
  match o with
  | none => true
  | some s => s = ""

/-- The `try` body of the walk for one existing, non-skipped file: record a
parse failure as an error entry, otherwise update-and-save when something
changed.  Returns the module file store after the step, the result entry and
the contribution to `updated_count`. -/
def processContent (ln : String) (aid iid : Option String) (mpath : String)
    (store : FStore) (fn : String) : MFile → FStore × Option FileResult × Nat
  | .bad e =>
      (store, some { file := joinPath mpath fn, fname := fn
                     platform := platform_from_filename fn, changed := false
                     error := some e }, 0)
  | .doc d =>
      let r :=
        match platform_from_filename fn with
        | some .android => update_mapping d .android ln (aid.getD "")
        | some .ios => update_mapping d .ios ln (iid.getD "")
        | none => (d, false)
      if r.2 then
        (aupdate store fn (.doc r.1),
         some { file := joinPath mpath fn, fname := fn
                platform := platform_from_filename fn
                changed := true, error := none }, 1)
      else
        (store, some { file := joinPath mpath fn, fname := fn
                       platform := platform_from_filename fn, changed := false
                       error := none }, 0)

/-- Processing of a single `(module_dir, fname)` pair of the walk (see
`processContent` for the `try` body). -/
def processOne (ln : String) (aid iid : Option String) (mpath : String)
    (store : FStore) (fn : String) : FStore × Option FileResult × Nat :=
  match alookup store fn with
  | none => (store, none, 0)
  | some content =>
      let plat := platform_from_filename fn
      if plat = some .android && idFalsy aid then (store, none, 0)
      else if plat = some .ios && idFalsy iid then (store, none, 0)
      else processContent ln aid iid mpath store fn content

/-- The inner loop over the filename list for one module, threading the
module's file store. -/
def processFiles (ln : String) (aid iid : Option String) (mpath : String)
    (store : FStore) : List String → FStore × List FileResult × Nat
  | [] => (store, [], 0)
  | fn :: rest =>
      let step := processOne ln aid iid mpath store fn
      let tail := processFiles ln aid iid mpath step.1 rest
      (tail.1, step.2.1.toList ++ tail.2.1, step.2.2 + tail.2.2)

/-- The result of the whole walk: the modules after the walk (the disk
state), the `updated` count, and the `files` result entries. -/
structure UpdateRun : Type where
  modules : List Module
  updated : Nat
  results : List FileResult
deriving DecidableEq

/-- The filename list actually walked: `files_override or DEFAULT_FILES`,
with the Spanish locale variants dropped when `include_locale_files` is
false. -/
def filenamesFor (filesOverride : Option (List String))
    (includeLocale : Bool) : List String :=
  let base := filesOverride.getD DEFAULT_FILES
  if includeLocale then base else base.filter fun f => ¬ strContains f "spanish"

/-- The outer loop of `update_logical_name_across_modules` over the sorted
module directories, accumulating the modules after the walk, the `updated`
count and the `results` entries in walk order. -/
def walkModules (ln : String) (aid iid : Option String) (fns : List String) :
    List Module → List Module × Nat × List FileResult
  | [] => ([], 0, [])
  | m :: ms =>
      let r := processFiles ln aid iid m.path m.files fns
      let rest := walkModules ln aid iid fns ms
      ({ path := m.path, files := r.1 } :: rest.1,
       r.2.2 + rest.2.1, r.2.1 ++ rest.2.2)

/-- `mapping_updater.update_logical_name_across_modules`.  `rootIsDir` is
`os.path.isdir(root)` for the modules root; `modules` is the sorted list of
module directories the `glob` walk visits.  When the root is missing the
walk returns `updated = 0` with no per-file results. -/
def update_logical_name_across_modules (rootIsDir : Bool)
    (modules : List Module) (ln : String) (aid iid : Option String)
    (includeLocale : Bool) (filesOverride : Option (List String)) :
    UpdateRun :=
  if ¬ rootIsDir then { modules := modules, updated := 0, results := [] }
  else
    let w := walkModules ln aid iid (filenamesFor filesOverride includeLocale)
      modules
    { modules := w.1, updated := w.2.1, results := w.2.2 }

/-! ## Measurement helpers and concrete instances used by the claims -/

/-- Number of changed lines of a unified diff: lines starting with `+` or `-`
other than the `+++`/`---` file headers. -/
def diffChangedLines (d : String) : Nat :=
  ((pySplit d "\n").filter fun l =>
    (startsWithB l "+" || startsWithB l "-") &&
    !(startsWithB l "+++") && !(startsWithB l "---")).length

/-- A button node labelled `"Checkout Now"`, carrying an accessibility
`name`. -/
def btnCheckoutNow : XNode :=
  .mk [("type", "XCUIElementTypeButton"), ("label", "Checkout Now"),
       ("name", "btnCheckoutNow")] []

/-- A button node labelled `"Check Out"`, with no `name` attribute. -/
def btnCheckOut : XNode :=
  .mk [("type", "XCUIElementTypeButton"), ("label", "Check Out")] []

/-- An accessibility tree with exactly two buttons, in document order
`["Checkout Now", "Check Out"]`. -/
def c5Tree : XNode := .mk [] [btnCheckoutNow, btnCheckOut]

/-- The second button of the amended Scenario B tree, labelled
`"Checkout Now"`, with the given optional `name` attribute. -/
def c5AmendedBtn (nameAttr : Option String) : XNode :=
  .mk ([("type", "XCUIElementTypeButton"), ("label", "Checkout Now")] ++
    (match nameAttr with
     | some v => [("name", v)]
     | none => [])) []

/-- An accessibility tree with exactly two buttons, in document order
`["Check Out", "Checkout Now"]`, the second carrying the given optional
`name` attribute. -/
def c5AmendedTree (nameAttr : Option String) : XNode :=
  .mk [] [btnCheckOut, c5AmendedBtn nameAttr]

/-- The old iOS locator of Scenario B. -/
def c5OldLocator : String := "label == \"Check Out\""

/-- A snapshot path used by the concrete orchestrator runs. -/
def snapPath : FPath := ("snapdir", "snap.xml")

/-- An accessibility tree with a single proposable button (used to drive the
orchestrator's iOS path to a candidate). -/
def oneBtnTree : XNode :=
  .mk [] [.mk [("type", "XCUIElementTypeButton"), ("label", "Checkout Now"),
               ("name", "btnCheckoutNow")] []]

/-- Orchestrator environment in which the workspace directory exists, the
test module always fails, and the snapshot parses to `oneBtnTree`: the cycle
reaches the apply step and the validator reports ok. -/
def envOk : OrchEnv :=
  { testsDir := "tests", logsDir := "logs", absLogs := "/abs/logs"
    dirs := ["tests"]
    exec := fun _ => .ret false
    parseXml := fun _ => some oneBtnTree }

/-- Like `envOk` but the workspace directory does not exist, so the validator
reports not-ok and the cycle rolls back. -/
def envNoDir : OrchEnv :=
  { testsDir := "tests", logsDir := "logs", absLogs := "/abs/logs"
    dirs := []
    exec := fun _ => .ret false
    parseXml := fun _ => some oneBtnTree }

/-- Like `envOk` but the snapshot parses to a tree with no button nodes, so
the iOS strategy returns no candidate. -/
def envNoBtn : OrchEnv :=
  { testsDir := "tests", logsDir := "logs", absLogs := "/abs/logs"
    dirs := ["tests"]
    exec := fun _ => .ret false
    parseXml := fun _ => some (.mk [] []) }

/-- The original content of the target iOS test artifact in the concrete
runs. -/
def tfContent : String := "LOCATOR = \"btnOld\"\n"

/-- File system for the concrete runs: the target iOS test artifact and the
snapshot file. -/
def fsOk : FS :=
  [((("tests" : String), ("ios_cart_test.py" : String)), tfContent),
   (snapPath, "<AppiumAUT></AppiumAUT>")]

/-- A default orchestrator outcome used only to project concrete `run_once`
results in closed witness statements. -/
def dOut : OrchOut :=
  { status := "", reason := none, rolledBack := false, diff := ""
    suggestion := none, fs := [], execCalls := 0, verified := none
    proposal := none, patchedText := none, originalText := none }

/-- An HTML snapshot whose id attributes, in order of appearance, are
`["btnOld", "btnProceedNew"]`. -/
def c4Html : String :=
  "<button id=\"btnOld\">Old</button> <button id=\"btnProceedNew\">Go</button>"

/-- A mapping document with one android record for `"checkout_button"`. -/
def mDocA : YDoc :=
  { android := .items [.dict (some "checkout_button") (some "com.old:id/btn")]
    ios := .missing }

/-- A mapping document with one iOS record for `"checkout_button"`. -/
def mDocI : YDoc :=
  { android := .missing
    ios := .items [.dict (some "checkout_button") (some "oldAccId")] }

/-- A concrete module store: an android mapping file, an iOS mapping file,
and nothing else. -/
def mStore : FStore :=
  [("mappings-android.yaml", .doc mDocA), ("mappings-ios.yaml", .doc mDocI)]

/-- Stability of one file of a module store under a repeat of the same
update: the walk's second visit to a file with this content performs no write
and counts nothing.  A missing file is skipped; a parse failure is reported
again without a write; a parsed document must yield `changed = False` for
whichever platform the filename selects (vacuous when the platform's new
identifier is falsy, since the walk then skips the file). -/
def fileStable (ln : String) (aid iid : Option String) (fn : String) :
    Option MFile → Prop
  | none => True
  | some (.bad _) => True
  | some (.doc d) =>
      (platform_from_filename fn = some .android → idFalsy aid = false →
        (update_mapping d .android ln (aid.getD "")).2 = false) ∧
      (platform_from_filename fn = some .ios → idFalsy iid = false →
        (update_mapping d .ios ln (iid.getD "")).2 = false)

/-! ## Lemmas: mapping updater -/

theorem updItems_snd_false (ln nid : String) (l : List MItem)
    (h : (updItems ln nid l).2 = false) : (updItems ln nid l).1 = l := by
  induction l with
  | nil => rfl
  | cons it rest ih =>
      cases it with
      | dict nm idf =>
          by_cases h1 : nm = some ln
          · by_cases h2 : idf = some nid
            · simp only [updItems, h1, h2, if_pos] at h ⊢
              simp [ih h, h2]
            · simp [updItems, h1, h2] at h
          · simp only [updItems, h1, if_neg, ite_false] at h ⊢
            simp [ih h]
      | nonDict =>
          simp only [updItems] at h ⊢
          simp [ih h]

theorem updItems_idem (ln nid : String) (l : List MItem) :
    updItems ln nid (updItems ln nid l).1 = ((updItems ln nid l).1, false) := by
  induction l with
  | nil => rfl
  | cons it rest ih =>
      cases it with
      | dict nm idf =>
          by_cases h1 : nm = some ln
          · by_cases h2 : idf = some nid
            · simp [updItems, h1, h2, ih]
            · simp [updItems, h1, h2, ih]
          · simp [updItems, h1, ih]
      | nonDict => simp [updItems, ih]

theorem slot_setSlot (d : YDoc) (k : Plat) (s : PlatSlot) :
    (d.setSlot k s).slot k = s := by
  cases k <;> simp [YDoc.slot, YDoc.setSlot]

theorem setSlot_setSlot (d : YDoc) (k : Plat) (s t : PlatSlot) :
    (d.setSlot k s).setSlot k t = d.setSlot k t := by
  cases k <;> simp [YDoc.setSlot]

theorem update_mapping_idem (d : YDoc) (k : Plat) (ln nid : String) :
    update_mapping (update_mapping d k ln nid).1 k ln nid =
      ((update_mapping d k ln nid).1, false) := by
  rcases hs : d.slot k with l | _ | _
  · simp only [update_mapping, hs]
    simp only [slot_setSlot, setSlot_setSlot, updItems_idem]
  · simp [update_mapping, hs]
  · simp [update_mapping, hs]

theorem processOne_stable (ln : String) (aid iid : Option String)
    (mp : String) (store : FStore) (fn : String)
    (h : fileStable ln aid iid fn (alookup store fn)) :
    (processOne ln aid iid mp store fn).1 = store ∧
    (processOne ln aid iid mp store fn).2.2 = 0 := by
  rcases hl : alookup store fn with _ | c
  · simp [processOne, hl]
  rcases c with d | e
  · -- parsed document
    rw [hl] at h
    simp only [fileStable] at h
    rcases hplat : platform_from_filename fn with _ | p
    · simp [processOne, processContent, hl, hplat]
    · cases p
      · cases hfa : idFalsy aid
        · have hupd := h.1 hplat hfa
          simp [processOne, processContent, hl, hplat, hfa, hupd]
        · simp [processOne, hl, hplat, hfa]
      · cases hfi : idFalsy iid
        · have hupd := h.2 hplat hfi
          simp [processOne, processContent, hl, hplat, hfi, hupd]
        · simp [processOne, hl, hplat, hfi]
  · -- parse failure
    simp only [processOne, hl]
    split
    · simp
    · split <;> simp [processContent]

theorem processOne_establishes (ln : String) (aid iid : Option String)
    (mp : String) (store : FStore) (fn : String) :
    fileStable ln aid iid fn
      (alookup (processOne ln aid iid mp store fn).1 fn) := by
  rcases hl : alookup store fn with _ | c
  · simp [processOne, hl, fileStable]
  rcases c with d | e
  · rcases hplat : platform_from_filename fn with _ | p
    · simp [processOne, processContent, hl, hplat, fileStable]
    · cases p
      · cases hfa : idFalsy aid
        · -- android update actually attempted
          by_cases hch : (update_mapping d .android ln (aid.getD "")).2 = true
          · simp only [processOne, processContent, hl, hplat, hfa]
            simp [hch, alookup_aupdate_self, fileStable, hplat,
              update_mapping_idem]
          · simp only [Bool.not_eq_true] at hch
            simp [processOne, processContent, hl, hplat, hfa, hch, fileStable,
              hch]
        · simp [processOne, hl, hplat, hfa, fileStable, hl]
      · cases hfi : idFalsy iid
        · by_cases hch : (update_mapping d .ios ln (iid.getD "")).2 = true
          · simp only [processOne, processContent, hl, hplat, hfi]
            simp [hch, alookup_aupdate_self, fileStable, hplat,
              update_mapping_idem]
          · simp only [Bool.not_eq_true] at hch
            simp [processOne, processContent, hl, hplat, hfi, hch, fileStable]
        · simp [processOne, hl, hplat, hfi, fileStable, hl]
  · simp only [processOne, hl]
    split
    · simp [hl, fileStable]
    · split <;> simp [processContent, hl, fileStable]

theorem processOne_frame (ln : String) (aid iid : Option String)
    (mp : String) (store : FStore) (fn g : String) (h : g ≠ fn) :
    alookup (processOne ln aid iid mp store fn).1 g = alookup store g := by
  rcases hl : alookup store fn with _ | c
  · simp [processOne, hl]
  rcases c with d | e
  · simp only [processOne, processContent, hl]
    split
    · rfl
    · split
      · rfl
      · split
        · simp [alookup_aupdate_ne _ _ _ _ h]
        · rfl
  · simp only [processOne, processContent, hl]
    split
    · rfl
    · split <;> rfl

theorem processFiles_frame (ln : String) (aid iid : Option String)
    (mp : String) (store : FStore) (L : List String) (g : String)
    (h : g ∉ L) :
    alookup (processFiles ln aid iid mp store L).1 g = alookup store g := by
  induction L generalizing store with
  | nil => rfl
  | cons fn rest ih =>
      have hg : g ≠ fn := fun hh => h (hh ▸ List.mem_cons_self fn rest)
      have hrest : g ∉ rest := fun hh => h (List.mem_cons_of_mem fn hh)
      simp only [processFiles]
      rw [ih _ hrest, processOne_frame _ _ _ _ _ _ _ hg]

theorem processFiles_establishes (ln : String) (aid iid : Option String)
    (mp : String) (store : FStore) (L : List String) (fn : String)
    (h : fn ∈ L) :
    fileStable ln aid iid fn
      (alookup (processFiles ln aid iid mp store L).1 fn) := by
  induction L generalizing store with
  | nil => cases h
  | cons g rest ih =>
      by_cases hr : fn ∈ rest
      · simp only [processFiles]
        exact ih _ hr
      · have hfg : fn = g := by
          rcases List.mem_cons.mp h with h1 | h1
          · exact h1
          · exact absurd h1 hr
        subst hfg
        simp only [processFiles]
        rw [processFiles_frame _ _ _ _ _ _ _ hr]
        exact processOne_establishes _ _ _ _ _ _

theorem processFiles_stable (ln : String) (aid iid : Option String)
    (mp : String) (store : FStore) (L : List String)
    (h : ∀ fn ∈ L, fileStable ln aid iid fn (alookup store fn)) :
    (processFiles ln aid iid mp store L).1 = store ∧
    (processFiles ln aid iid mp store L).2.2 = 0 := by
  induction L generalizing store with
  | nil => exact ⟨rfl, rfl⟩
  | cons f rest ih =>
      have h1 := processOne_stable ln aid iid mp store f
        (h f (List.mem_cons_self f rest))
      have h2 := ih store fun g hg => h g (List.mem_cons_of_mem f hg)
      simp only [processFiles, h1.1, h1.2]
      simp [h2.1, h2.2]

theorem processFiles_idem (ln : String) (aid iid : Option String)
    (mp : String) (store : FStore) (L : List String) :
    (processFiles ln aid iid mp
        (processFiles ln aid iid mp store L).1 L).1 =
      (processFiles ln aid iid mp store L).1 ∧
    (processFiles ln aid iid mp
        (processFiles ln aid iid mp store L).1 L).2.2 = 0 :=
  processFiles_stable _ _ _ _ _ _ fun _fn hfn =>
    processFiles_establishes _ _ _ _ _ _ _ hfn

theorem walkModules_idem (ln : String) (aid iid : Option String)
    (fns : List String) (ms : List Module) :
    (walkModules ln aid iid fns (walkModules ln aid iid fns ms).1).2.1 = 0 ∧
    (walkModules ln aid iid fns (walkModules ln aid iid fns ms).1).1 =
      (walkModules ln aid iid fns ms).1 := by
  induction ms with
  | nil => exact ⟨rfl, rfl⟩
  | cons m rest ih =>
      have h := processFiles_idem ln aid iid m.path m.files fns
      simp only [walkModules, h.1, h.2, ih.1, ih.2]
      simp

/-- **C7**: For every tests repository and every fixed triple
`(logical_name, android_id, ios_id)` (and every locale / override
configuration), running the mapping update twice in a row with the same
arguments yields `updated = 0` on the second application, and the second
application performs no writes: the equality check against the current
identifier suppresses no-op writes, so they are neither performed nor
counted. -/
theorem C7_mapping_update_idempotent (rootIsDir : Bool)
    (modules : List Module) (ln : String) (aid iid : Option String)
    (includeLocale : Bool) (filesOverride : Option (List String)) :
    (update_logical_name_across_modules rootIsDir
      (update_logical_name_across_modules rootIsDir modules ln aid iid
        includeLocale filesOverride).modules
      ln aid iid includeLocale filesOverride).updated = 0 ∧
    (update_logical_name_across_modules rootIsDir
      (update_logical_name_across_modules rootIsDir modules ln aid iid
        includeLocale filesOverride).modules
      ln aid iid includeLocale filesOverride).modules =
      (update_logical_name_across_modules rootIsDir modules ln aid iid
        includeLocale filesOverride).modules := by
  cases rootIsDir with
  | false => simp [update_logical_name_across_modules]
  | true =>
      have key := walkModules_idem ln aid iid
        (filenamesFor filesOverride includeLocale) modules
      simp [update_logical_name_across_modules, key.1, key.2]

theorem processContent_fname (ln : String) (aid iid : Option String)
    (mp : String) (store : FStore) (fn : String) (c : MFile) (r : FileResult)
    (hr : (processContent ln aid iid mp store fn c).2.1 = some r) :
    r.fname = fn := by
  cases c with
  | bad e =>
      simp only [processContent] at hr
      cases hr
      rfl
  | doc d =>
      simp only [processContent] at hr
      split at hr <;> (cases hr; rfl)

theorem processContent_res_congr (ln : String) (aid iid : Option String)
    (mp : String) (s s' : FStore) (fn : String) (c : MFile) :
    (processContent ln aid iid mp s fn c).2 =
      (processContent ln aid iid mp s' fn c).2 := by
  cases c with
  | bad e => rfl
  | doc d =>
      simp only [processContent]
      split <;> rfl

theorem processContent_store_congr (ln : String) (aid iid : Option String)
    (mp : String) (s s' : FStore) (fn : String) (c : MFile) (h : String)
    (hh : alookup s h = alookup s' h) :
    alookup (processContent ln aid iid mp s fn c).1 h =
      alookup (processContent ln aid iid mp s' fn c).1 h := by
  cases c with
  | bad e => exact hh
  | doc d =>
      simp only [processContent]
      split
      · by_cases hfn : h = fn
        · subst hfn
          rw [alookup_aupdate_self, alookup_aupdate_self]
        · rw [alookup_aupdate_ne _ _ _ _ hfn, alookup_aupdate_ne _ _ _ _ hfn]
          exact hh
      · exact hh

theorem processOne_bad (ln : String) (aid iid : Option String)
    (mp : String) (store : FStore) (fn e : String)
    (hbad : alookup store fn = some (.bad e))
    (hA : ¬(platform_from_filename fn = some .android ∧ idFalsy aid = true))
    (hI : ¬(platform_from_filename fn = some .ios ∧ idFalsy iid = true)) :
    processOne ln aid iid mp store fn =
      (store, some { file := joinPath mp fn, fname := fn
                     platform := platform_from_filename fn, changed := false
                     error := some e }, 0) := by
  have hA' : (decide (platform_from_filename fn = some Plat.android) &&
      idFalsy aid) = false := by
    rcases h1 : decide (platform_from_filename fn = some Plat.android) with _ | _
    · rfl
    · rcases h2 : idFalsy aid with _ | _
      · rfl
      · exact absurd ⟨of_decide_eq_true h1, h2⟩ hA
  have hI' : (decide (platform_from_filename fn = some Plat.ios) &&
      idFalsy iid) = false := by
    rcases h1 : decide (platform_from_filename fn = some Plat.ios) with _ | _
    · rfl
    · rcases h2 : idFalsy iid with _ | _
      · rfl
      · exact absurd ⟨of_decide_eq_true h1, h2⟩ hI
  simp [processOne, hbad, hA', hI', processContent]

theorem processOne_bad_store (ln : String) (aid iid : Option String)
    (mp : String) (store : FStore) (fn e : String)
    (hbad : alookup store fn = some (.bad e)) :
    (processOne ln aid iid mp store fn).1 = store := by
  simp only [processOne, hbad]
  split
  · rfl
  · split
    · rfl
    · rfl

theorem processOne_fname (ln : String) (aid iid : Option String)
    (mp : String) (store : FStore) (fn : String) (r : FileResult)
    (hr : (processOne ln aid iid mp store fn).2.1 = some r) :
    r.fname = fn := by
  rcases hl : alookup store fn with _ | c
  · rw [processOne, hl] at hr
    cases hr
  · rw [processOne, hl] at hr
    simp only at hr
    split at hr
    · cases hr
    · split at hr
      · cases hr
      · exact processContent_fname ln aid iid mp store fn c r hr

theorem processOne_res_congr (ln : String) (aid iid : Option String)
    (mp : String) (s s' : FStore) (g : String)
    (hg : alookup s g = alookup s' g) :
    (processOne ln aid iid mp s g).2 = (processOne ln aid iid mp s' g).2 := by
  rw [processOne, processOne, hg]
  rcases hl : alookup s' g with _ | c
  · rfl
  · simp only
    split
    · rfl
    · split
      · rfl
      · exact processContent_res_congr ln aid iid mp s s' g c

theorem processOne_store_congr (ln : String) (aid iid : Option String)
    (mp : String) (s s' : FStore) (g : String)
    (hg : alookup s g = alookup s' g) (h : String)
    (hh : alookup s h = alookup s' h) :
    alookup (processOne ln aid iid mp s g).1 h =
      alookup (processOne ln aid iid mp s' g).1 h := by
  rw [processOne, processOne, hg]
  rcases hl : alookup s' g with _ | c
  · exact hh
  · simp only
    split
    · exact hh
    · split
      · exact hh
      · exact processContent_store_congr ln aid iid mp s s' g c h hh

theorem processFiles_bad_reported (ln : String) (aid iid : Option String)
    (mp : String) (store : FStore) (L : List String) (fn e : String)
    (hbad : alookup store fn = some (.bad e)) (hfn : fn ∈ L)
    (hA : ¬(platform_from_filename fn = some .android ∧ idFalsy aid = true))
    (hI : ¬(platform_from_filename fn = some .ios ∧ idFalsy iid = true)) :
    ({ file := joinPath mp fn, fname := fn
       platform := platform_from_filename fn, changed := false
       error := some e } : FileResult) ∈
      (processFiles ln aid iid mp store L).2.1 := by
  induction L generalizing store with
  | nil => cases hfn
  | cons g rest ih =>
      by_cases hg : g = fn
      · subst hg
        rw [processFiles]
        rw [processOne_bad ln aid iid mp store g e hbad hA hI]
        simp
      · rcases List.mem_cons.mp hfn with h1 | h1
        · exact absurd h1.symm hg
        · rw [processFiles]
          have hkeep : alookup (processOne ln aid iid mp store g).1 fn =
              some (.bad e) := by
            rw [processOne_frame ln aid iid mp store g fn
              (fun hh => hg hh.symm)]
            exact hbad
          have := ih (processOne ln aid iid mp store g).1 hkeep h1
          simp only [List.mem_append]
          exact Or.inr this

theorem processFiles_bad_kept (ln : String) (aid iid : Option String)
    (mp : String) (store : FStore) (L : List String) (fn e : String)
    (hbad : alookup store fn = some (.bad e)) :
    alookup (processFiles ln aid iid mp store L).1 fn = some (.bad e) := by
  induction L generalizing store with
  | nil => exact hbad
  | cons g rest ih =>
      rw [processFiles]
      by_cases hg : g = fn
      · subst hg
        refine ih _ ?_
        rw [processOne_bad_store ln aid iid mp store g e hbad]
        exact hbad
      · refine ih _ ?_
        rw [processOne_frame ln aid iid mp store g fn (fun hh => hg hh.symm)]
        exact hbad

theorem processFiles_isolate (ln : String) (aid iid : Option String)
    (mp : String) (L : List String) (fn : String) :
    ∀ s s', (∀ g, g ≠ fn → alookup s g = alookup s' g) →
      ((processFiles ln aid iid mp s L).2.1.filter
          (fun r => r.fname ≠ fn) =
        (processFiles ln aid iid mp s' L).2.1.filter
          (fun r => r.fname ≠ fn)) ∧
      (∀ g, g ≠ fn → alookup (processFiles ln aid iid mp s L).1 g =
        alookup (processFiles ln aid iid mp s' L).1 g) := by
  induction L with
  | nil => exact fun s s' hss => ⟨rfl, hss⟩
  | cons g rest ih =>
      intro s s' hss
      by_cases hg : g = fn
      · subst hg
        -- both runs process the marked file; its entries are filtered out,
        -- and it is the only key either side writes
        have hstep : ∀ h, h ≠ g →
            alookup (processOne ln aid iid mp s g).1 h =
              alookup (processOne ln aid iid mp s' g).1 h := by
          intro h hh
          rw [processOne_frame ln aid iid mp s g h hh,
            processOne_frame ln aid iid mp s' g h hh]
          exact hss h hh
        have tail := ih (processOne ln aid iid mp s g).1
          (processOne ln aid iid mp s' g).1 hstep
        constructor
        · rw [processFiles, processFiles]
          rw [List.filter_append, List.filter_append, tail.1]
          have hdrop : ∀ (t : FStore),
              ((processOne ln aid iid mp t g).2.1.toList.filter
                (fun r => r.fname ≠ g)) = [] := by
            intro t
            rcases hopt : (processOne ln aid iid mp t g).2.1 with _ | r
            · rfl
            · have := processOne_fname ln aid iid mp t g r hopt
              simp [hopt, this]
          rw [hdrop s, hdrop s']
        · rw [processFiles, processFiles]
          exact tail.2
      · -- an unmarked file: both sides behave identically on it
        have hgl : alookup s g = alookup s' g := hss g hg
        have hres := processOne_res_congr ln aid iid mp s s' g hgl
        have hstep : ∀ h, h ≠ fn →
            alookup (processOne ln aid iid mp s g).1 h =
              alookup (processOne ln aid iid mp s' g).1 h := by
          intro h hh
          exact processOne_store_congr ln aid iid mp s s' g hgl h (hss h hh)
        have tail := ih (processOne ln aid iid mp s g).1
          (processOne ln aid iid mp s' g).1 hstep
        constructor
        · rw [processFiles, processFiles]
          rw [List.filter_append, List.filter_append, tail.1, hres]
        · rw [processFiles, processFiles]
          exact tail.2

theorem walkModules_append (ln : String) (aid iid : Option String)
    (fns : List String) (a b : List Module) :
    walkModules ln aid iid fns (a ++ b) =
      ((walkModules ln aid iid fns a).1 ++ (walkModules ln aid iid fns b).1,
       (walkModules ln aid iid fns a).2.1 +
         (walkModules ln aid iid fns b).2.1,
       (walkModules ln aid iid fns a).2.2 ++
         (walkModules ln aid iid fns b).2.2) := by
  induction a with
  | nil => simp [walkModules]
  | cons m rest ih =>
      simp [walkModules, ih]
      omega

/-- **C8**: During a mapping-update walk over module directories, a YAML
mapping document that fails to parse (here: the file `fn` of the marked
module, walked and not skipped by the platform guards) is skipped and
recorded in the per-file results with its error reason, and every other
mapping document in the walk is still processed exactly as it would be were
that file's content anything else (`alt`) — including any updates to them —
so one malformed file never aborts or alters the rest of the walk. -/
theorem C8_malformed_isolated (ms₁ ms₂ : List Module) (mp : String)
    (files : FStore) (fn e ln : String) (aid iid : Option String)
    (inc : Bool) (ovr : Option (List String)) (alt : MFile)
    (hfn : fn ∈ filenamesFor ovr inc)
    (hA : ¬(platform_from_filename fn = some .android ∧ idFalsy aid = true))
    (hI : ¬(platform_from_filename fn = some .ios ∧ idFalsy iid = true)) :
    ({ file := joinPath mp fn, fname := fn
       platform := platform_from_filename fn, changed := false
       error := some e } : FileResult) ∈
      (update_logical_name_across_modules true
        (ms₁ ++ { path := mp, files := aupdate files fn (.bad e) } :: ms₂)
        ln aid iid inc ovr).results ∧
    (update_logical_name_across_modules true
        (ms₁ ++ { path := mp, files := aupdate files fn (.bad e) } :: ms₂)
        ln aid iid inc ovr).results.filter (fun r => r.fname ≠ fn) =
      (update_logical_name_across_modules true
        (ms₁ ++ { path := mp, files := aupdate files fn alt } :: ms₂)
        ln aid iid inc ovr).results.filter (fun r => r.fname ≠ fn) := by
  simp only [update_logical_name_across_modules]
  rw [if_neg (by simp)]
  rw [if_neg (by simp)]
  simp only [walkModules_append, walkModules]
  constructor
  · have hmem := processFiles_bad_reported ln aid iid mp
      (aupdate files fn (.bad e)) (filenamesFor ovr inc) fn e
      (alookup_aupdate_self _ _ _) hfn hA hI
    simp only [List.mem_append]
    exact Or.inr (Or.inl hmem)
  · have hiso := processFiles_isolate ln aid iid mp (filenamesFor ovr inc) fn
      (aupdate files fn (.bad e)) (aupdate files fn alt)
      (fun g hg => by
        rw [alookup_aupdate_ne _ _ _ _ hg, alookup_aupdate_ne _ _ _ _ hg])
    simp only [List.filter_append]
    rw [hiso.1]

/-! ## Lemmas: orchestrator -/

theorem fsRead_fsWrite_ne (fs : FS) (p q : FPath) (c : String) (h : q ≠ p) :
    fsRead (fsWrite fs p c) q = fsRead fs q :=
  alookup_aupdate_ne fs p q c h

theorem fsRead_fsWrite_self (fs : FS) (p : FPath) (c : String) :
    fsRead (fsWrite fs p c) p = some c :=
  alookup_aupdate_self fs p c

theorem pathNe {d₁ d₂ n₁ n₂ : String} (h : n₁ ≠ n₂) :
    ((d₁, n₁) : FPath) ≠ (d₂, n₂) :=
  fun hh => h (congrArg Prod.snd hh)

/-- Combined branch analysis of a completed `run_once` call: the executor
runs exactly once; the two candidate target test files under `tests_dir` keep
their content; when the apply step was reached the status, rollback flag and
verification verdict are tied to the validator's `ok`, the diff is empty and
the patched text equals the original; on the no-candidate exit the status is
`no_candidate_found` and the target files are untouched (byte-for-byte, even
if absent). -/
theorem runOnce_master (env : OrchEnv) (fs₀ : FS) (tm : String) (sp : FPath)
    (key pl : String) (out : OrchOut)
    (h : run_once env fs₀ tm sp key pl = some out) :
    out.execCalls = 1 ∧
    (∀ n c, (n = "ios_cart_test.py" ∨ n = "failing_test.py") →
      fsRead fs₀ (env.testsDir, n) = some c →
      fsRead out.fs (env.testsDir, n) = some c) ∧
    (∀ b, out.verified = some b →
      out.status = (if b then "healed" else "failed_validation") ∧
      out.rolledBack = !b ∧
      b = (PatchValidator_validate env.dirs
        (if env.testsDir = "" then "." else env.testsDir) true).ok ∧
      out.diff = "" ∧ out.patchedText = out.originalText ∧
      (b = true → fsRead out.fs (env.testsDir, "ios_cart_test.py") =
        fsRead fs₀ (env.testsDir, "ios_cart_test.py"))) ∧
    (out.proposal = some none →
      out.status = "no_candidate_found" ∧
      (∀ n, (n = "ios_cart_test.py" ∨ n = "failing_test.py") →
        fsRead out.fs (env.testsDir, n) = fsRead fs₀ (env.testsDir, n))) := by
  have hne : ∀ (n a : String), (n = "ios_cart_test.py" ∨
      n = "failing_test.py") →
      (a = "failure_error" ∨ a = "snapshot" ∨ a = "suggested_patch" ∨
       a = "validation_result" ∨ a = "patch.diff") →
      ∀ d₁ d₂ : String, ((d₁, n) : FPath) ≠ (d₂, a) := by
    intro n a hn ha d₁ d₂
    rcases hn with hn | hn <;> subst hn <;>
      rcases ha with ha | ha | ha | ha | ha <;> subst ha <;>
        exact pathNe (by decide)
  simp only [run_once] at h
  split at h
  · -- already passed
    cases h
    refine ⟨rfl, fun n c _ hc => hc, ?_, ?_⟩
    · intro b hb
      cases hb
    · intro hp
      cases hp
  · -- test failed: snapshot read
    split at h
    · -- snapshot file missing: run_once raised
      cases h
    · -- snapshot read; platform dispatch
      split at h
      · -- iOS path: strategy result
        split at h
        · -- no candidate
          cases h
          refine ⟨rfl, ?_, ?_, ?_⟩
          · intro n c hn hc
            rw [fsRead_fsWrite_ne _ _ _ _ (hne n "snapshot" hn (by simp) _ _),
              fsRead_fsWrite_ne _ _ _ _
                (hne n "failure_error" hn (by simp) _ _)]
            exact hc
          · intro b hb
            cases hb
          · intro _
            refine ⟨rfl, ?_⟩
            intro n hn
            rw [fsRead_fsWrite_ne _ _ _ _ (hne n "snapshot" hn (by simp) _ _),
              fsRead_fsWrite_ne _ _ _ _
                (hne n "failure_error" hn (by simp) _ _)]
        · -- candidate found: apply step, then commit or roll back
          obtain rfl := Option.some.inj h
          refine ⟨?_, ?_, ?_, ?_⟩
          · simp only [runOnceFinish]
            split <;> rfl
          · intro n c hn hc
            simp only [runOnceFinish]
            split
            · -- healed: only artifact writes
              rw [fsRead_fsWrite_ne _ _ _ _
                  (hne n "patch.diff" hn (by simp) _ _),
                fsRead_fsWrite_ne _ _ _ _
                  (hne n "validation_result" hn (by simp) _ _),
                fsRead_fsWrite_ne _ _ _ _
                  (hne n "suggested_patch" hn (by simp) _ _),
                fsRead_fsWrite_ne _ _ _ _ (hne n "snapshot" hn (by simp) _ _),
                fsRead_fsWrite_ne _ _ _ _
                  (hne n "failure_error" hn (by simp) _ _)]
              exact hc
            · -- rolled back: the original text is rewritten in place
              rcases hn with hn | hn
              · subst hn
                rw [fsRead_fsWrite_self]
                simp only [apply_and_run_compat, safeRead]
                rw [fsRead_fsWrite_ne _ _ _ _
                    (hne _ "suggested_patch" (by simp) (by simp) _ _),
                  fsRead_fsWrite_ne _ _ _ _
                    (hne _ "snapshot" (by simp) (by simp) _ _),
                  fsRead_fsWrite_ne _ _ _ _
                    (hne _ "failure_error" (by simp) (by simp) _ _),
                  hc]
                rfl
              · subst hn
                rw [fsRead_fsWrite_ne _ _ _ _ (pathNe (by decide)),
                  fsRead_fsWrite_ne _ _ _ _
                    (hne _ "validation_result" (by simp) (by simp) _ _),
                  fsRead_fsWrite_ne _ _ _ _
                    (hne _ "suggested_patch" (by simp) (by simp) _ _),
                  fsRead_fsWrite_ne _ _ _ _
                    (hne _ "snapshot" (by simp) (by simp) _ _),
                  fsRead_fsWrite_ne _ _ _ _
                    (hne _ "failure_error" (by simp) (by simp) _ _)]
                exact hc
          · intro b hb
            simp only [runOnceFinish] at hb ⊢
            split at hb
            · cases hb
              rename_i hok
              rw [if_pos hok]
              have hokv : (PatchValidator_validate env.dirs
                  (if env.testsDir = "" then "." else env.testsDir)
                  true).ok = true := hok
              refine ⟨rfl, rfl, hokv.symm, rfl, rfl, ?_⟩
              intro _
              rw [fsRead_fsWrite_ne _ _ _ _
                  (hne _ "patch.diff" (by simp) (by simp) _ _),
                fsRead_fsWrite_ne _ _ _ _
                  (hne _ "validation_result" (by simp) (by simp) _ _),
                fsRead_fsWrite_ne _ _ _ _
                  (hne _ "suggested_patch" (by simp) (by simp) _ _),
                fsRead_fsWrite_ne _ _ _ _
                  (hne _ "snapshot" (by simp) (by simp) _ _),
                fsRead_fsWrite_ne _ _ _ _
                  (hne _ "failure_error" (by simp) (by simp) _ _)]
            · cases hb
              rename_i hok
              rw [if_neg hok]
              simp only [Bool.not_eq_true] at hok
              have hokv : (PatchValidator_validate env.dirs
                  (if env.testsDir = "" then "." else env.testsDir)
                  true).ok = false := hok
              refine ⟨rfl, rfl, hokv.symm, rfl, rfl, ?_⟩
              intro hff
              cases hff
          · intro hp'
            simp only [runOnceFinish] at hp'
            split at hp' <;>
              exact absurd (Option.some.inj hp') (by simp)
      · -- web path: strategy module missing, no candidate
        cases h
        refine ⟨rfl, ?_, ?_, ?_⟩
        · intro n c hn hc
          rw [fsRead_fsWrite_ne _ _ _ _ (hne n "snapshot" hn (by simp) _ _),
            fsRead_fsWrite_ne _ _ _ _
              (hne n "failure_error" hn (by simp) _ _)]
          exact hc
        · intro b hb
          cases hb
        · intro hp
          cases hp

/-! ## Claims -/

/-- **C1**: For every run of the orchestrator's propose-apply-verify cycle
(`Orchestrator.run_once`) in which the verification step reports failure
(`verified = some false`), the content of the target test artifact file after
the cycle completes equals its content before the cycle began, and the
returned result is marked `rolled_back = true` with status
`failed_validation`.  (The content hypothesis presupposes, as the claim does,
that the target artifact exists before the cycle.) -/
theorem C1_rollback_invariant (env : OrchEnv) (fs₀ : FS) (tm : String)
    (sp : FPath) (key pl : String) (out : OrchOut) (c : String)
    (hrun : run_once env fs₀ tm sp key pl = some out)
    (hv : out.verified = some false)
    (hc : fsRead fs₀ (env.testsDir, "ios_cart_test.py") = some c) :
    out.status = "failed_validation" ∧ out.rolledBack = true ∧
    fsRead out.fs (env.testsDir, "ios_cart_test.py") = some c := by
  have m := runOnce_master env fs₀ tm sp key pl out hrun
  have hverif := m.2.2.1 false hv
  refine ⟨?_, ?_, m.2.1 "ios_cart_test.py" c (Or.inl rfl) hc⟩
  · simpa using hverif.1
  · simpa using hverif.2.1

/-- Witness for C1: a concrete rolled-back cycle (the workspace directory
does not exist, so the validator fails) restores the target artifact and
reports `failed_validation` with `rolled_back = true`. -/
theorem C1_rollback_invariant_witness :
    ((run_once envNoDir fsOk "tests.ios_cart_test" snapPath c5OldLocator
        "ios").getD dOut).status = "failed_validation" ∧
    ((run_once envNoDir fsOk "tests.ios_cart_test" snapPath c5OldLocator
        "ios").getD dOut).rolledBack = true ∧
    fsRead ((run_once envNoDir fsOk "tests.ios_cart_test" snapPath
        c5OldLocator "ios").getD dOut).fs ("tests", "ios_cart_test.py") =
      some tfContent :=
  C1_rollback_invariant envNoDir fsOk "tests.ios_cart_test" snapPath
    c5OldLocator "ios" _ tfContent rfl rfl rfl

/-- **C2 counterexample**: the claim states that every cycle reaching the
Applying step re-executes the test and commits iff the re-run passes.  On
this concrete cycle the apply step is reached and the result is `healed`,
yet the test executor was invoked exactly once and the test module fails on
every invocation — no re-execution happened and the commit decision cannot
equal any re-run outcome. -/
theorem C2_counterexample :
    ((run_once envOk fsOk "tests.ios_cart_test" snapPath c5OldLocator
        "ios").map fun o => (o.status, o.execCalls)) = some ("healed", 1) ∧
    run_test_and_capture (envOk.exec 1) =
      (false, some "AssertionError: locator not found") :=
  ⟨rfl, rfl⟩

/-- **C2 amended**: for every orchestration cycle that reaches the Applying
step, the test is *not* re-executed (the Test Executor ran exactly once, at
detection); the commit-versus-rollback decision equals the `ok` verdict of
`PatchValidator.validate` on the workspace directory (the directory of the
target file, defaulted to `"."`): status `healed` if and only if that
validation passes. -/
theorem C2_amended_commit_equals_validator (env : OrchEnv) (fs₀ : FS)
    (tm : String) (sp : FPath) (key pl : String) (out : OrchOut) (b : Bool)
    (hrun : run_once env fs₀ tm sp key pl = some out)
    (hv : out.verified = some b) :
    out.execCalls = 1 ∧
    out.status = (if b then "healed" else "failed_validation") ∧
    b = (PatchValidator_validate env.dirs
      (if env.testsDir = "" then "." else env.testsDir) true).ok := by
  have m := runOnce_master env fs₀ tm sp key pl out hrun
  exact ⟨m.1, (m.2.2.1 b hv).1, (m.2.2.1 b hv).2.2.1⟩

/-- Witness for the amended C2: a concrete committed cycle — the workspace
exists, the validator reports ok, the status is `healed` after a single
executor invocation. -/
theorem C2_amended_commit_equals_validator_witness :
    ((run_once envOk fsOk "tests.ios_cart_test" snapPath c5OldLocator
        "ios").getD dOut).execCalls = 1 ∧
    ((run_once envOk fsOk "tests.ios_cart_test" snapPath c5OldLocator
        "ios").getD dOut).status = (if true then "healed"
          else "failed_validation") ∧
    true = (PatchValidator_validate envOk.dirs
      (if envOk.testsDir = "" then "." else envOk.testsDir) true).ok :=
  C2_amended_commit_equals_validator envOk fsOk "tests.ios_cart_test"
    snapPath c5OldLocator "ios" _ true rfl rfl

/-- **C3 counterexample**: the claim states that applying the patch to an
artifact containing the sentinel `LOCATOR = "btnOld"` with new value
`"btnProceedNew"` replaces the sentinel's right-hand side, writes the
patched text, and yields a unified diff with exactly one changed line.  On
the code's compatibility apply layer, the very same call returns the
original text as the patched text (no substitution), an empty diff with zero
changed lines, and performs no write at all (it returns no file system). -/
theorem C3_counterexample :
    apply_and_run_compat envOk
      [((("tests" : String), ("ios_cart_test.py" : String)), tfContent)]
      ("tests", "ios_cart_test.py") "tests.ios_cart_test" "btnProceedNew" =
      (true, "", tfContent, tfContent) ∧
    diffChangedLines "" = 0 :=
  ⟨rfl, rfl⟩

/-- **C3 amended**: the apply layer is a no-op on the artifact: for every
cycle that reaches the apply step and commits, the diff is empty (zero
changed lines), the patched text equals the original text, and the target
artifact's content is unchanged — nothing is ever written to it. -/
theorem C3_amended_apply_is_noop (env : OrchEnv) (fs₀ : FS) (tm : String)
    (sp : FPath) (key pl : String) (out : OrchOut)
    (hrun : run_once env fs₀ tm sp key pl = some out)
    (hv : out.verified = some true) :
    out.diff = "" ∧ diffChangedLines out.diff = 0 ∧
    out.patchedText = out.originalText ∧
    fsRead out.fs (env.testsDir, "ios_cart_test.py") =
      fsRead fs₀ (env.testsDir, "ios_cart_test.py") := by
  have m := runOnce_master env fs₀ tm sp key pl out hrun
  have hv' := m.2.2.1 true hv
  refine ⟨hv'.2.2.2.1, ?_, hv'.2.2.2.2.1, hv'.2.2.2.2.2 rfl⟩
  rw [hv'.2.2.2.1]
  rfl

/-- Witness for the amended C3: the concrete committed cycle on an artifact
containing the sentinel line shows the empty diff, unchanged patched text
and untouched artifact. -/
theorem C3_amended_apply_is_noop_witness :
    ((run_once envOk fsOk "tests.ios_cart_test" snapPath c5OldLocator
        "ios").getD dOut).diff = "" ∧
    diffChangedLines ((run_once envOk fsOk "tests.ios_cart_test" snapPath
        c5OldLocator "ios").getD dOut).diff = 0 ∧
    ((run_once envOk fsOk "tests.ios_cart_test" snapPath c5OldLocator
        "ios").getD dOut).patchedText =
      ((run_once envOk fsOk "tests.ios_cart_test" snapPath c5OldLocator
        "ios").getD dOut).originalText ∧
    fsRead ((run_once envOk fsOk "tests.ios_cart_test" snapPath c5OldLocator
        "ios").getD dOut).fs ("tests", "ios_cart_test.py") =
      fsRead fsOk ("tests", "ios_cart_test.py") :=
  C3_amended_apply_is_noop envOk fsOk "tests.ios_cart_test" snapPath
    c5OldLocator "ios" _ rfl rfl

/-- **C4** (spec-modelled strategy): For every HTML snapshot whose id
attributes, in order of appearance, are `["btnOld", "btnProceedNew"]`, the
web proposal strategy invoked with old id `"btnOld"` returns a non-null
candidate whose new id is `"btnProceedNew"` — selected by the
preference-list match on `"proceed"` — together with a rationale.
(`SimpleRetriever.guess_replacement_for` is absent from the sources and
modelled from the spec; `generate_locator_patch` is translated from the
source.) -/
theorem C4_web_preference_match (html : String)
    (h : extract_ids html = ["btnOld", "btnProceedNew"]) :
    generate_locator_patch "btnOld" html =
      some { new_id := "btnProceedNew"
             rationale := "Replaced " ++ squote ++ "btnOld" ++ squote ++
               " with " ++ squote ++ "btnProceedNew" ++ squote ++
               " via HTML heuristic." } := by
  simp only [generate_locator_patch, guess_replacement_for, h]
  decide

/-- Witness for C4: a concrete HTML snapshot with exactly the two ids. -/
theorem C4_web_preference_match_witness :
    generate_locator_patch "btnOld" c4Html =
      some { new_id := "btnProceedNew"
             rationale := "Replaced " ++ squote ++ "btnOld" ++ squote ++
               " with " ++ squote ++ "btnProceedNew" ++ squote ++
               " via HTML heuristic." } :=
  C4_web_preference_match c4Html (by decide)

/-- **C5 counterexample**: the claim states that for *every* accessibility
tree containing exactly two buttons labeled `"Check Out"` and
`"Checkout Now"`, the iOS strategy (old locator `label == "Check Out"`,
`prefer_accessibility` set) returns a candidate whose label is
`"Checkout Now"`, selected by the case-insensitive substring match.  On this
tree (document order: `Checkout Now`, then `Check Out`) the strategy returns
the candidate built from the *old* label `"Check Out"`: the substring rule
matches nothing (`"check out"` is not a substring of `"checkout now"`), so
the fallback to the first collected label decides, and the stack traversal
collects the labels in reverse document order. -/
theorem C5_counterexample :
    find_button_label_candidates c5Tree = ["Check Out", "Checkout Now"] ∧
    strContains "checkout now" "check out" = false ∧
    genIosFromRoot c5OldLocator c5Tree true =
      some { strategy := "ios_predicate", value := "label == \"Check Out\""
             rationale :=
               "Updated label from \"Check Out\" to \"Check Out\"." } :=
  ⟨by decide, by decide, by decide⟩

/-- **C5 amended**: for the accessibility tree whose two buttons are, in
document order, `"Check Out"` then `"Checkout Now"`, the strategy returns a
candidate built from the label `"Checkout Now"` — selected by the fallback
to the first collected label (labels are collected in reverse document
order and the case-insensitive substring check matches no label).  If that
node carries a non-empty `name` attribute the candidate's strategy tag is
`accessibility_id` with that attribute's value, otherwise it is an
`ios_predicate` candidate built from the label. -/
theorem C5_amended_fallback_first_label (nameAttr : Option String) :
    genIosFromRoot c5OldLocator (c5AmendedTree nameAttr) true =
      some (match nameAttr with
        | some v =>
            if v = "" then
              { strategy := "ios_predicate"
                value := "label == \"Checkout Now\""
                rationale :=
                  "Updated label from \"Check Out\" to \"Checkout Now\"." }
            else
              { strategy := "accessibility_id", value := v
                rationale := "Preferred accessibility id \"" ++ v ++
                  "\" on button labeled \"Checkout Now\"." }
        | none =>
            { strategy := "ios_predicate"
              value := "label == \"Checkout Now\""
              rationale :=
                "Updated label from \"Check Out\" to \"Checkout Now\"." }) := by
  cases nameAttr with
  | none => decide
  | some v =>
      by_cases hv : v = ""
      · subst hv
        decide
      · simp +decide [genIosFromRoot, c5AmendedTree, c5AmendedBtn,
          btnCheckOut, c5OldLocator, extractTargetLabel, strContains,
          find_button_label_candidates, find_button_with_label, iterNodes,
          travL, travN, XNode.children, XNode.attrs, XNode.attrGet, get_attr,
          alookup, dedupFirst, pyTruthy, hv]
        rw [String.append_assoc, String.append_assoc]
        rfl

/-- **C6**: For every orchestration cycle in which the selected proposal
strategy returns null (`proposal = some none`), the cycle terminates with
status `no_candidate_found`, the target test artifact files are not mutated
(byte-for-byte, even when absent), and the Test Executor is not invoked a
second time. -/
theorem C6_no_candidate_short_circuit (env : OrchEnv) (fs₀ : FS)
    (tm : String) (sp : FPath) (key pl : String) (out : OrchOut)
    (hrun : run_once env fs₀ tm sp key pl = some out)
    (hp : out.proposal = some none) :
    out.status = "no_candidate_found" ∧ out.execCalls = 1 ∧
    fsRead out.fs (env.testsDir, "ios_cart_test.py") =
      fsRead fs₀ (env.testsDir, "ios_cart_test.py") ∧
    fsRead out.fs (env.testsDir, "failing_test.py") =
      fsRead fs₀ (env.testsDir, "failing_test.py") := by
  have m := runOnce_master env fs₀ tm sp key pl out hrun
  have hq := m.2.2.2 hp
  exact ⟨hq.1, m.1, hq.2 _ (Or.inl rfl), hq.2 _ (Or.inr rfl)⟩

/-- Witness for C6: a concrete cycle whose snapshot has no button nodes, so
the iOS strategy returns null. -/
theorem C6_no_candidate_short_circuit_witness :
    ((run_once envNoBtn fsOk "tests.ios_cart_test" snapPath c5OldLocator
        "ios").getD dOut).status = "no_candidate_found" ∧
    ((run_once envNoBtn fsOk "tests.ios_cart_test" snapPath c5OldLocator
        "ios").getD dOut).execCalls = 1 ∧
    fsRead ((run_once envNoBtn fsOk "tests.ios_cart_test" snapPath
        c5OldLocator "ios").getD dOut).fs ("tests", "ios_cart_test.py") =
      fsRead fsOk ("tests", "ios_cart_test.py") ∧
    fsRead ((run_once envNoBtn fsOk "tests.ios_cart_test" snapPath
        c5OldLocator "ios").getD dOut).fs ("tests", "failing_test.py") =
      fsRead fsOk ("tests", "failing_test.py") :=
  C6_no_candidate_short_circuit envNoBtn fsOk "tests.ios_cart_test" snapPath
    c5OldLocator "ios" _ rfl rfl

/-- Witness for C8: a concrete walk over one module whose android mapping
file is malformed; its error entry is recorded and the other files are
processed as if the malformed file held its original parsed content. -/
theorem C8_malformed_isolated_witness :
    ({ file := joinPath "us/e2e-tests/modules/cart" "mappings-android.yaml"
       fname := "mappings-android.yaml"
       platform := platform_from_filename "mappings-android.yaml"
       changed := false, error := some "bad yaml" } : FileResult) ∈
      (update_logical_name_across_modules true
        [{ path := "us/e2e-tests/modules/cart"
           files := aupdate mStore "mappings-android.yaml"
             (.bad "bad yaml") }]
        "checkout_button" (some "com.new:id/btn") (some "newAccId") true
        none).results ∧
    (update_logical_name_across_modules true
        [{ path := "us/e2e-tests/modules/cart"
           files := aupdate mStore "mappings-android.yaml"
             (.bad "bad yaml") }]
        "checkout_button" (some "com.new:id/btn") (some "newAccId") true
        none).results.filter (fun r => r.fname ≠ "mappings-android.yaml") =
      (update_logical_name_across_modules true
        [{ path := "us/e2e-tests/modules/cart"
           files := aupdate mStore "mappings-android.yaml"
             (.doc mDocA) }]
        "checkout_button" (some "com.new:id/btn") (some "newAccId") true
        none).results.filter (fun r => r.fname ≠ "mappings-android.yaml") :=
  C8_malformed_isolated [] [] "us/e2e-tests/modules/cart" mStore
    "mappings-android.yaml" "bad yaml" "checkout_button"
    (some "com.new:id/btn") (some "newAccId") true none (.doc mDocA)
    (by decide) (by decide) (by decide)

/-- **C9**: For every test module path, the Test Executor's
`run_test_and_capture` returns a `(passed, error)` pair and never propagates
an exception to its caller: any failure raised while importing, reloading,
or running the test's entry point is converted to `(False, errorString)`,
where `errorString` combines the failure's kind and message.  (The function
is total on `TestOutcome`, which includes every raising behaviour of the
entry point, so no outcome escapes.) -/
theorem C9_detector_converts_raises (kind msg : String) :
    run_test_and_capture (TestOutcome.raise kind msg) =
      (false, some (kind ++ ": " ++ msg)) :=
  rfl

/-- **C10**: For every invocation of `Orchestrator.run_once`, on every
platform and for every terminal outcome, the content of the target test
files under `tests_dir` is identical before and after the call: the
compatibility apply layer never writes a patched version of the file, and
the rollback branch writes back exactly the text that was read from the
still-unmodified file.  (Stated for an artifact that exists before the
call.) -/
theorem C10_target_file_never_mutated (env : OrchEnv) (fs₀ : FS)
    (tm : String) (sp : FPath) (key pl : String) (out : OrchOut)
    (n c : String)
    (hrun : run_once env fs₀ tm sp key pl = some out)
    (hn : n = "ios_cart_test.py" ∨ n = "failing_test.py")
    (hc : fsRead fs₀ (env.testsDir, n) = some c) :
    fsRead out.fs (env.testsDir, n) = some c :=
  (runOnce_master env fs₀ tm sp key pl out hrun).2.1 n c hn hc

/-- Witness for C10: the concrete committed cycle leaves the target test
file's content untouched. -/
theorem C10_target_file_never_mutated_witness :
    fsRead ((run_once envOk fsOk "tests.ios_cart_test" snapPath c5OldLocator
        "ios").getD dOut).fs ("tests", "ios_cart_test.py") =
      some tfContent :=
  C10_target_file_never_mutated envOk fsOk "tests.ios_cart_test" snapPath
    c5OldLocator "ios" _ "ios_cart_test.py" tfContent rfl (Or.inl rfl) rfl

end Autoheal
